import Mathlib

/-
Verification of the nabarr core: the peernet topic router in
cmd/nabarr/main.go, the overlay node construction and bootstrap in
peernet/peernet.go, and the shutdown wiring in main.
-/

namespace Nabarr

/-- Embedding of the fields of media.FeedItem that the router in
cmd/nabarr/main.go reads: the three external catalog identifiers
(TvdbId, TmdbId, ImdbId), the category labels and the display title. -/
structure FeedItem where
  title : String
  category : List String
  tvdbId : String
  tmdbId : String
  imdbId : String
deriving DecidableEq

/-- Embedding of a pvr consumer as the router sees it: its configured
name (the key of the pvrs map in main.go) and its Type() class label
("sonarr" or "radarr"). -/
structure PVR where
  name : String
  type : String
deriving DecidableEq

/-- An inbound peernet message, abstracted at the json.Unmarshal
boundary: either it decodes to a FeedItem or it is malformed. -/
inductive PnMessage where
  | malformed
  | wellFormed (fi : FeedItem)
deriving DecidableEq

/-- The result of json.Unmarshal on the inbound bytes in pnHandler. -/
def decodeFeedItem : PnMessage → Option FeedItem
  | .malformed => none
  | .wellFormed fi => some fi

/-- Embedding of the switch in pnHandler (main.go lines 218-227): the
first case queues the item to a sonarr pvr when tvdbId or tmdbId is
present and the category is a TV category; the second case queues it to
a radarr pvr when imdbId or tmdbId is present and the category is a
Movie category. The predicates containsTv and containsMovie stand for
util.ContainsTvCategory and util.ContainsMovieCategory, whose code is
outside src; the theorems quantify over them. -/
def pvrDeliveries (containsTv containsMovie : List String → Bool)
    (fi : FeedItem) (pvrs : List PVR) : List (PVR × FeedItem) :=
  pvrs.filterMap (fun p =>
    if (fi.tvdbId != "" || fi.tmdbId != "") && containsTv fi.category
        && (p.type == "sonarr") then
      some (p, fi)
    else if (fi.imdbId != "" || fi.tmdbId != "") && containsMovie fi.category
        && (p.type == "radarr") then
      some (p, fi)
    else
      none)

/-- The consumers whose classification rule matches the item: the
per-consumer decision of the switch in pnHandler, as a filter. -/
def matchingConsumers (containsTv containsMovie : List String → Bool)
    (fi : FeedItem) (pvrs : List PVR) : List PVR :=
  pvrs.filter (fun p =>
    ((fi.tvdbId != "" || fi.tmdbId != "") && containsTv fi.category
        && (p.type == "sonarr"))
    || ((fi.imdbId != "" || fi.tmdbId != "") && containsMovie fi.category
        && (p.type == "radarr")))

/-- Observable outcome of one pnHandler invocation: the QueueFeedItem
calls it makes, whether it logged a decode error, and the error value
the handler returns to the overlay delivery pipeline (always nil in the
code, modelled as none). -/
structure HandlerOutcome where
  queued : List (PVR × FeedItem)
  loggedDecodeError : Bool
  handlerError : Option String
deriving DecidableEq

/-- Embedding of pnHandler (main.go lines 203-232): decode the payload;
on failure log and queue nothing; on success fan out per the switch.
The handler itself returns nil to the overlay in every case. -/
def pnHandler (containsTv containsMovie : List String → Bool)
    (pvrs : List PVR) (data : PnMessage) : HandlerOutcome :=
  match decodeFeedItem data with
  | none =>
      { queued := [], loggedDecodeError := true, handlerError := none }
  | some fi =>
      { queued := pvrDeliveries containsTv containsMovie fi pvrs
        loggedDecodeError := false
        handlerError := none }

/-- Processing of a sequence of inbound messages: pnHandler holds no
state between invocations (the pvrs map is fixed after startup), so a
run over a message list is a map. -/
def processInbound (containsTv containsMovie : List String → Bool)
    (pvrs : List PVR) (msgs : List PnMessage) : List HandlerOutcome :=
  msgs.map (pnHandler containsTv containsMovie pvrs)

/-- The statically known peernet topics main.go subscribes to
(main.go lines 234-246). -/
def subscribedTopics : List String := ["sonarr", "radarr"]

/-- The handler table main.go registers: the identical pnHandler is
registered for both the sonarr topic and the radarr topic; other topics
have no handler. -/
def topicHandler (containsTv containsMovie : List String → Bool)
    (pvrs : List PVR) (topic : String) (data : PnMessage) :
    Option HandlerOutcome :=
  if topic ∈ subscribedTopics then
    some (pnHandler containsTv containsMovie pvrs data)
  else
    none

end Nabarr

namespace Peernet

/-- Embedding of peernet.Config (peernet.go lines 12-20). Go's int for
the port is modelled as Int. -/
structure Config where
  externalHost : String
  externalPort : Int
  identityKey : String
  networkKey : String
  bootstrapNode : String
  verbosity : String
deriving DecidableEq

/-- The p2p options New assembles (peernet.go lines 45-57): bind host
and port, advertised external host and port, DHT protocol id, identity
master key, the private-network pre-shared key, and the gossip and
secure-IO feature flags. -/
structure P2pOpts where
  hostName : String
  port : Int
  externalHostName : String
  externalPort : Int
  dhtProtocolId : Int
  masterKey : String
  privateNetworkPsk : String
  gossip : Bool
  secureIo : Bool
deriving DecidableEq

/-- An opened p2p host, abstract beyond its identity string. -/
structure Host where
  hostIdentity : String
deriving DecidableEq

/-- The validation at the top of New (peernet.go lines 31-37): the
error message returned, or none when both required fields are present. -/
def validateConfig (c : Config) : Option String :=
  if c.externalHost = "" then some "external_host must be provided"
  else if c.networkKey = "" then some "network_key must be provided"
  else none

/-- The config-default step of New (peernet.go lines 40-42): a zero
external port becomes 9157. -/
def applyDefaults (c : Config) : Config :=
  { c with externalPort := if c.externalPort = 0 then 9157 else c.externalPort }

/-- The option list New passes to p2p.NewHost (peernet.go lines 45-57),
evaluated on the config after defaulting. -/
def p2pOptions (c : Config) : P2pOpts :=
  { hostName := "0.0.0.0"
    port := c.externalPort
    externalHostName := c.externalHost
    externalPort := c.externalPort
    dhtProtocolId := 1337
    masterKey := c.identityKey
    privateNetworkPsk := c.networkKey
    gossip := true
    secureIo := true }

/-- The constructed node: the (defaulted) config it retains and the
opened host. -/
structure Node where
  cfg : Config
  host : Host
deriving DecidableEq

/-- Embedding of New (peernet.go lines 29-78): validate, apply the port
default, then open the host with the assembled options. The external
p2p.NewHost call is a parameter hostInit giving the transport outcome
for the options it receives. -/
def New (hostInit : P2pOpts → Except String Host) (c : Config) :
    Except String Node :=
  match validateConfig c with
  | some e => .error e
  | none =>
      let c := applyDefaults c
      match hostInit (p2pOptions c) with
      | .error e => .error ("new host: " ++ e)
      | .ok h => .ok { cfg := c, host := h }

/-- A parsed multiaddr, abstract beyond the string it came from. -/
structure Multiaddr where
  repr : String
deriving DecidableEq

/-- The externally visible steps Bootstrap takes against the address
parser, the transport and the overlay. -/
inductive BootAction where
  | parseAddr (s : String)
  | connectPeer (m : Multiaddr)
  | joinOverlay
deriving DecidableEq

/-- Embedding of Bootstrap (peernet.go lines 88-110): an empty
bootstrap_node is an immediate success with no action taken; otherwise
the address is parsed, the peer connected, and the overlay joined, with
parse and connect failures wrapped and returned. The external
multiaddr.NewMultiaddr and ConnectWithMultiaddr calls are the
parameters parse and connect. The result is the list of actions
attempted together with the returned error, if any. -/
def bootstrap (parse : String → Except String Multiaddr)
    (connect : Multiaddr → Except String Unit) (n : Node) :
    List BootAction × Option String :=
  if n.cfg.bootstrapNode = "" then ([], none)
  else
    match parse n.cfg.bootstrapNode with
    | .error e =>
        ([.parseAddr n.cfg.bootstrapNode],
         some ("parse bootstrap_node: " ++ e))
    | .ok ma =>
        match connect ma with
        | .error e =>
            ([.parseAddr n.cfg.bootstrapNode, .connectPeer ma],
             some ("connect bootstrap_node: " ++ e))
        | .ok _ =>
            ([.parseAddr n.cfg.bootstrapNode, .connectPeer ma,
              .joinOverlay], none)

end Peernet

namespace RunPath

/-- The externally visible steps of the run branch of main between
peernet construction and the rss start (main.go lines 234-266): topic
subscriptions, the bootstrap call, and the rss scheduler start. -/
inductive RunEvent where
  | subscribeTopic (t : String)
  | bootstrapJoin
  | rssStart
deriving DecidableEq

/-- Trace of the run branch of main (main.go lines 234-266): subscribe
to the sonarr topic, then to the radarr topic, then bootstrap into the
overlay, then start the rss scheduler; each step is attempted only if
every earlier step succeeded (on failure main logs and returns). The
parameters give the success of each subscription and of the bootstrap
call. -/
def runModeTrace (subscribeOk : String → Bool) (bootstrapOk : Bool) :
    List RunEvent :=
  if subscribeOk "sonarr" then
    if subscribeOk "radarr" then
      if bootstrapOk then
        [.subscribeTopic "sonarr", .subscribeTopic "radarr",
         .bootstrapJoin, .rssStart]
      else
        [.subscribeTopic "sonarr", .subscribeTopic "radarr",
         .bootstrapJoin]
    else
      [.subscribeTopic "sonarr", .subscribeTopic "radarr"]
  else
    [.subscribeTopic "sonarr"]

end RunPath

namespace Shutdown

/-- Modelled from the spec: the lifecycle-state library (lefelys/state,
outside src) behind state.Merge, DependsOn and Shutdown. Per the spec,
states merge into an aggregate with declared dependency edges, and a
component is only signaled to stop once everything it depends on has
finished stopping. A state is a named leaf, an empty state, a merge of
two states, or a dependent state paired with its dependency. -/
inductive CompState where
  | leaf (name : String)
  | emptyState
  | merge2 (a b : CompState)
  | dependsOn (dependent dependency : CompState)
deriving DecidableEq

/-- Modelled from the spec: the order in which Shutdown signals the
named components — everything a component depends on finishes stopping
before the component is signaled, so a dependency's names all precede
the dependent's names; merged siblings carry no mutual ordering and are
listed in merge order. -/
def shutdownOrder : CompState → List String
  | .leaf n => [n]
  | .emptyState => []
  | .merge2 a b => shutdownOrder a ++ shutdownOrder b
  | .dependsOn dependent dependency =>
      shutdownOrder dependency ++ shutdownOrder dependent

/-- The variadic state.Merge over a list of states, as a fold of the
binary merge. -/
def mergeStates (l : List CompState) : CompState :=
  l.foldr .merge2 .emptyState

/-- The aggregate main.go builds for shutdown (main.go line 317): the
merged pvr-processor states declared to depend on the rss-scheduler
state, one pvr state per configured pvr name. -/
def appState (pvrNames : List String) : CompState :=
  .dependsOn (mergeStates (pvrNames.map .leaf)) (.leaf "rss")

/-- The shutdown deadline main.go passes via context.WithTimeout
(main.go line 314): 60 seconds. -/
def appShutdownDeadlineSeconds : Nat := 60

end Shutdown

namespace Nabarr

/-- A filterMap whose function is a guarded some is the map over the
filter by the guard. -/
theorem filterMap_guard {α β : Type} (f : α → Bool) (g : α → β)
    (l : List α) :
    (l.filterMap fun x => if f x then some (g x) else none) =
      (l.filter f).map g := by
  induction l with
  | nil => rfl
  | cons x xs ih =>
      rw [List.filterMap_cons, List.filter_cons]
      by_cases h : f x = true
      · rw [if_pos h, if_pos h, List.map_cons, ih]
      · rw [if_neg h, if_neg h, ih]

/-- The fan-out of pnHandler is the map pairing each rule-matching
consumer with the item: the nested if of the filterMap agrees with the
disjunction of the filter. -/
theorem deliveries_eq_matching (ctv cmov : List String → Bool)
    (fi : FeedItem) (pvrs : List PVR) :
    pvrDeliveries ctv cmov fi pvrs =
      (matchingConsumers ctv cmov fi pvrs).map (fun p => (p, fi)) := by
  unfold pvrDeliveries matchingConsumers
  have hfun : (fun p : PVR =>
      if (fi.tvdbId != "" || fi.tmdbId != "") && ctv fi.category
          && (p.type == "sonarr") then some (p, fi)
      else if (fi.imdbId != "" || fi.tmdbId != "") && cmov fi.category
          && (p.type == "radarr") then some (p, fi)
      else none)
      = (fun p : PVR =>
      if ((fi.tvdbId != "" || fi.tmdbId != "") && ctv fi.category
          && (p.type == "sonarr"))
        || ((fi.imdbId != "" || fi.tmdbId != "") && cmov fi.category
          && (p.type == "radarr")) then some (p, fi)
      else none) := by
    funext p
    by_cases h1 : ((fi.tvdbId != "" || fi.tmdbId != "")
        && ctv fi.category && (p.type == "sonarr")) = true
    · simp [h1]
    · by_cases h2 : ((fi.imdbId != "" || fi.tmdbId != "")
          && cmov fi.category && (p.type == "radarr")) = true
      · simp [h1, h2]
      · simp [h1, h2]
  rw [hfun, filterMap_guard]

/-- A consumer-item pair is delivered exactly when the consumer is in
the supplied set and one of the two switch cases holds for it. -/
theorem mem_pvrDeliveries (ctv cmov : List String → Bool)
    (fi : FeedItem) (pvrs : List PVR) (p : PVR) :
    (p, fi) ∈ pvrDeliveries ctv cmov fi pvrs ↔
      p ∈ pvrs ∧
        (((fi.tvdbId ≠ "" ∨ fi.tmdbId ≠ "") ∧ ctv fi.category = true
            ∧ p.type = "sonarr") ∨
         ((fi.imdbId ≠ "" ∨ fi.tmdbId ≠ "") ∧ cmov fi.category = true
            ∧ p.type = "radarr")) := by
  rw [deliveries_eq_matching]
  simp only [List.mem_map, Prod.mk.injEq, and_true]
  constructor
  · rintro ⟨q, hq, rfl⟩
    rcases List.mem_filter.mp hq with ⟨hmem, hcond⟩
    refine ⟨hmem, ?_⟩
    rcases Bool.or_eq_true_iff.mp hcond with h | h
    · rcases Bool.and_eq_true_iff.mp h with ⟨h', hs⟩
      rcases Bool.and_eq_true_iff.mp h' with ⟨hid, hc⟩
      exact Or.inl ⟨by simpa [bne_iff_ne] using Bool.or_eq_true_iff.mp hid,
        hc, by simpa using hs⟩
    · rcases Bool.and_eq_true_iff.mp h with ⟨h', hs⟩
      rcases Bool.and_eq_true_iff.mp h' with ⟨hid, hc⟩
      exact Or.inr ⟨by simpa [bne_iff_ne] using Bool.or_eq_true_iff.mp hid,
        hc, by simpa using hs⟩
  · rintro ⟨hmem, hcase⟩
    refine ⟨p, List.mem_filter.mpr ⟨hmem, ?_⟩, rfl⟩
    rcases hcase with ⟨hid, hc, hs⟩ | ⟨hid, hc, hs⟩
    · exact Bool.or_eq_true_iff.mpr (Or.inl (by
        simp [Bool.and_eq_true_iff, bne_iff_ne, hid, hc, hs]))
    · exact Bool.or_eq_true_iff.mpr (Or.inr (by
        simp [Bool.and_eq_true_iff, bne_iff_ne, hid, hc, hs]))

/-- C1: a sonarr consumer in the set receives the item iff tvdb or tmdb
is non-empty and the category is a TV category; a radarr consumer in
the set receives it iff imdb or tmdb is non-empty and the category is a
Movie category; an item with all three identifiers empty is delivered
to no consumer. Quantified over the category predicates, which stand
for util.ContainsTvCategory and util.ContainsMovieCategory. -/
theorem C1_classification (ctv cmov : List String → Bool)
    (fi : FeedItem) (pvrs : List PVR) :
    (∀ p ∈ pvrs, p.type = "sonarr" →
      ((p, fi) ∈ pvrDeliveries ctv cmov fi pvrs ↔
        (fi.tvdbId ≠ "" ∨ fi.tmdbId ≠ "") ∧ ctv fi.category = true)) ∧
    (∀ p ∈ pvrs, p.type = "radarr" →
      ((p, fi) ∈ pvrDeliveries ctv cmov fi pvrs ↔
        (fi.imdbId ≠ "" ∨ fi.tmdbId ≠ "") ∧ cmov fi.category = true)) ∧
    (fi.tvdbId = "" → fi.tmdbId = "" → fi.imdbId = "" →
      pvrDeliveries ctv cmov fi pvrs = []) := by
  have hne : ("sonarr" : String) ≠ "radarr" := by decide
  refine ⟨?_, ?_, ?_⟩
  · intro p hmem htype
    rw [mem_pvrDeliveries]
    constructor
    · rintro ⟨-, ⟨hid, hc, -⟩ | ⟨-, -, hs⟩⟩
      · exact ⟨hid, hc⟩
      · exact absurd (htype ▸ hs) hne
    · rintro ⟨hid, hc⟩
      exact ⟨hmem, Or.inl ⟨hid, hc, htype⟩⟩
  · intro p hmem htype
    rw [mem_pvrDeliveries]
    constructor
    · rintro ⟨-, ⟨-, -, hs⟩ | ⟨hid, hc, -⟩⟩
      · exact absurd (htype ▸ hs).symm hne
      · exact ⟨hid, hc⟩
    · rintro ⟨hid, hc⟩
      exact ⟨hmem, Or.inr ⟨hid, hc, htype⟩⟩
  · intro h1 h2 h3
    rw [deliveries_eq_matching]
    have : matchingConsumers ctv cmov fi pvrs = [] := by
      simp [matchingConsumers, List.filter_eq_nil_iff, h1, h2, h3]
    simp [this]

/-- Sample TV-category predicate for concrete evaluations. -/
def ctvEx : List String → Bool := fun c => c.contains "tv"

/-- Sample Movie-category predicate for concrete evaluations. -/
def cmovEx : List String → Bool := fun c => c.contains "movie"

/-- Sample TV feed item carrying only a tvdb identifier. -/
def fiTv : FeedItem :=
  { title := "Show.S01E01", category := ["tv"],
    tvdbId := "121361", tmdbId := "", imdbId := "" }

/-- Sample sonarr consumer. -/
def sonarrPvr : PVR := { name := "son", type := "sonarr" }

/-- Second sample sonarr consumer. -/
def sonarrPvr2 : PVR := { name := "son2", type := "sonarr" }

/-- Sample radarr consumer. -/
def radarrPvr : PVR := { name := "rad", type := "radarr" }

/-- Witness for C1: the TV item with a tvdb id is delivered to a
concrete sonarr consumer. -/
theorem C1_classification_witness :
    (sonarrPvr, fiTv) ∈ pvrDeliveries ctvEx cmovEx fiTv
      [sonarrPvr, radarrPvr] :=
  ((C1_classification ctvEx cmovEx fiTv [sonarrPvr, radarrPvr]).1
      sonarrPvr (by decide) rfl).mpr ⟨Or.inl (by decide), by decide⟩

/-- C2: a malformed inbound payload queues nothing to any consumer,
logs a decode error, and the handler returns nil to the overlay
delivery pipeline; the handler returns nil on every payload, and a
malformed message leaves the processing of every subsequent message
unchanged. -/
theorem C2_malformed_dropped (ctv cmov : List String → Bool)
    (pvrs : List PVR) (msgs : List PnMessage) :
    pnHandler ctv cmov pvrs .malformed =
      { queued := [], loggedDecodeError := true, handlerError := none } ∧
    (∀ data : PnMessage,
      (pnHandler ctv cmov pvrs data).handlerError = none) ∧
    processInbound ctv cmov pvrs (.malformed :: msgs) =
      { queued := [], loggedDecodeError := true, handlerError := none } ::
        processInbound ctv cmov pvrs msgs := by
  refine ⟨rfl, ?_, rfl⟩
  intro data
  cases data <;> rfl

/-- C5: fan-out is to all consumers whose class rule matches — the
delivery list is exactly the rule-matching consumers, each paired with
the decoded item, and every matching consumer in the set receives it. -/
theorem C5_fanout (ctv cmov : List String → Bool) (fi : FeedItem)
    (pvrs : List PVR) :
    pvrDeliveries ctv cmov fi pvrs =
      (matchingConsumers ctv cmov fi pvrs).map (fun p => (p, fi)) ∧
    ∀ p ∈ matchingConsumers ctv cmov fi pvrs,
      (p, fi) ∈ pvrDeliveries ctv cmov fi pvrs := by
  refine ⟨deliveries_eq_matching ctv cmov fi pvrs, ?_⟩
  intro p hp
  rw [deliveries_eq_matching]
  exact List.mem_map.mpr ⟨p, hp, rfl⟩

/-- Witness for C5: with two sonarr consumers registered, the second
matching consumer also receives the TV item. -/
theorem C5_fanout_witness :
    (sonarrPvr2, fiTv) ∈ pvrDeliveries ctvEx cmovEx fiTv
      [sonarrPvr, sonarrPvr2] :=
  (C5_fanout ctvEx cmovEx fiTv [sonarrPvr, sonarrPvr2]).2
    sonarrPvr2 (by decide)

/-- C10: the identical pnHandler is registered for the sonarr topic and
the radarr topic, so the outcome for a payload — in particular the set
of consumers queued — is the same whichever of the two topics the
message arrived on. -/
theorem C10_topic_independence (ctv cmov : List String → Bool)
    (pvrs : List PVR) (data : PnMessage) :
    topicHandler ctv cmov pvrs "sonarr" data
        = some (pnHandler ctv cmov pvrs data) ∧
    topicHandler ctv cmov pvrs "radarr" data
        = some (pnHandler ctv cmov pvrs data) :=
  ⟨rfl, rfl⟩

end Nabarr

namespace Peernet

/-- A transport initializer that always succeeds, for concrete runs. -/
def hostInitOk : P2pOpts → Except String Host :=
  fun _ => .ok { hostIdentity := "id0" }

/-- A valid sample config with a zero external port. -/
def cfgOk : Config :=
  { externalHost := "example.org", externalPort := 0, identityKey := "ik",
    networkKey := "nk", bootstrapNode := "", verbosity := "" }

/-- C3: New returns the external_host validation error when
external_host is empty, the network_key validation error when
external_host is present but network_key is empty, and succeeds —
reaching transport setup — whenever both are non-empty and the
transport opens. -/
theorem C3_config_validation (hostInit : P2pOpts → Except String Host)
    (c : Config) :
    (c.externalHost = "" →
      New hostInit c = .error "external_host must be provided") ∧
    (c.externalHost ≠ "" → c.networkKey = "" →
      New hostInit c = .error "network_key must be provided") ∧
    (c.externalHost ≠ "" → c.networkKey ≠ "" →
      ∀ h, hostInit (p2pOptions (applyDefaults c)) = .ok h →
        New hostInit c = .ok { cfg := applyDefaults c, host := h }) := by
  refine ⟨?_, ?_, ?_⟩
  · intro h1
    simp [New, validateConfig, h1]
  · intro h1 h2
    simp [New, validateConfig, h1, h2]
  · intro h1 h2 h hh
    simp [New, validateConfig, h1, h2, hh]

/-- Witness for C3 at a concrete valid config and a transport that
opens. -/
theorem C3_config_validation_witness :
    New hostInitOk cfgOk =
      .ok { cfg := applyDefaults cfgOk, host := { hostIdentity := "id0" } } :=
  (C3_config_validation hostInitOk cfgOk).2.2 (by decide) (by decide)
    { hostIdentity := "id0" } rfl

/-- C6: for a config passing validation, a zero external_port yields
9157 as both the local bind port and the advertised external port of
the transport options; a non-zero external_port is used unchanged for
both. -/
theorem C6_port_default (c : Config) (_hv : validateConfig c = none) :
    (c.externalPort = 0 →
      (p2pOptions (applyDefaults c)).port = 9157 ∧
      (p2pOptions (applyDefaults c)).externalPort = 9157) ∧
    (c.externalPort ≠ 0 →
      (p2pOptions (applyDefaults c)).port = c.externalPort ∧
      (p2pOptions (applyDefaults c)).externalPort = c.externalPort) := by
  constructor
  · intro h0
    simp [p2pOptions, applyDefaults, h0]
  · intro h0
    simp [p2pOptions, applyDefaults, h0]

/-- Witness for C6 at the sample config with zero port. -/
theorem C6_port_default_witness :
    (p2pOptions (applyDefaults cfgOk)).port = 9157 ∧
    (p2pOptions (applyDefaults cfgOk)).externalPort = 9157 :=
  (C6_port_default cfgOk rfl).1 rfl

/-- C7: with an empty bootstrap_node, Bootstrap succeeds at once
taking no action — no parse, no connection, no join; with a non-empty
bootstrap_node, a parse failure or a connection failure is wrapped and
returned to the caller as an error. -/
theorem C7_bootstrap (parse : String → Except String Multiaddr)
    (connect : Multiaddr → Except String Unit) (n : Node) :
    (n.cfg.bootstrapNode = "" →
      bootstrap parse connect n = ([], none)) ∧
    (n.cfg.bootstrapNode ≠ "" →
      ∀ e, parse n.cfg.bootstrapNode = .error e →
        bootstrap parse connect n =
          ([.parseAddr n.cfg.bootstrapNode],
           some ("parse bootstrap_node: " ++ e))) ∧
    (n.cfg.bootstrapNode ≠ "" →
      ∀ ma e, parse n.cfg.bootstrapNode = .ok ma →
        connect ma = .error e →
        bootstrap parse connect n =
          ([.parseAddr n.cfg.bootstrapNode, .connectPeer ma],
           some ("connect bootstrap_node: " ++ e))) := by
  refine ⟨?_, ?_, ?_⟩
  · intro h0
    simp [bootstrap, h0]
  · intro h0 e he
    simp [bootstrap, h0, he]
  · intro h0 ma e hma he
    simp [bootstrap, h0, hma, he]

/-- A sample node whose config has no bootstrap peer. -/
def nodeNoBoot : Node :=
  { cfg := cfgOk, host := { hostIdentity := "id0" } }

/-- An address parser that always fails, for concrete runs. -/
def parseFail : String → Except String Multiaddr :=
  fun _ => .error "bad addr"

/-- A connector that always succeeds, for concrete runs. -/
def connectOk : Multiaddr → Except String Unit :=
  fun _ => .ok ()

/-- Witness for C7: on the node with no bootstrap peer, Bootstrap takes
no action and succeeds even though the parser would fail. -/
theorem C7_bootstrap_witness :
    bootstrap parseFail connectOk nodeNoBoot = ([], none) :=
  (C7_bootstrap parseFail connectOk nodeNoBoot).1 rfl

/-- Concrete valid config for the C9 counterexample, with a routable
external_host. -/
def cfgC9 : Config :=
  { externalHost := "198.51.100.7", externalPort := 0, identityKey := "",
    networkKey := "nk", bootstrapNode := "", verbosity := "" }

/-- Counterexample to C9 as stated: this config passes validation, yet
the listener bind host in the options New hands the transport is
"0.0.0.0", not the configured external_host. -/
theorem C9_counterexample :
    validateConfig cfgC9 = none ∧
    (p2pOptions (applyDefaults cfgC9)).hostName ≠ cfgC9.externalHost := by
  exact ⟨rfl, by decide⟩

/-- C9 amended: for every config passing validation, New opens the
transport with its listener bound to the wildcard host "0.0.0.0" (on
the effective port), advertises the configured external_host as the
node's external host name, and gates the network with the configured
network_key as the private-network pre-shared key, with secure IO and
gossip enabled. -/
theorem C9_amended (c : Config) (_hv : validateConfig c = none) :
    (p2pOptions (applyDefaults c)).hostName = "0.0.0.0" ∧
    (p2pOptions (applyDefaults c)).externalHostName = c.externalHost ∧
    (p2pOptions (applyDefaults c)).privateNetworkPsk = c.networkKey ∧
    (p2pOptions (applyDefaults c)).secureIo = true ∧
    (p2pOptions (applyDefaults c)).gossip = true := by
  simp [p2pOptions, applyDefaults]

/-- Witness for the amended C9 at the concrete config. -/
theorem C9_amended_witness :
    (p2pOptions (applyDefaults cfgC9)).hostName = "0.0.0.0" ∧
    (p2pOptions (applyDefaults cfgC9)).externalHostName =
      cfgC9.externalHost ∧
    (p2pOptions (applyDefaults cfgC9)).privateNetworkPsk =
      cfgC9.networkKey ∧
    (p2pOptions (applyDefaults cfgC9)).secureIo = true ∧
    (p2pOptions (applyDefaults cfgC9)).gossip = true :=
  C9_amended cfgC9 rfl

end Peernet

namespace RunPath

/-- C8: whenever the run path reaches the bootstrap call, the trace
starts with exactly the subscription to the sonarr topic followed by
the subscription to the radarr topic, each topic then subscribed
exactly once in the whole run; in every run each topic is subscribed at
most once. -/
theorem C8_subscribe_before_join (subOk : String → Bool) (bOk : Bool) :
    (RunEvent.bootstrapJoin ∈ runModeTrace subOk bOk →
      (∃ rest, runModeTrace subOk bOk =
        [.subscribeTopic "sonarr", .subscribeTopic "radarr",
         .bootstrapJoin] ++ rest) ∧
      (runModeTrace subOk bOk).count (.subscribeTopic "sonarr") = 1 ∧
      (runModeTrace subOk bOk).count (.subscribeTopic "radarr") = 1) ∧
    (runModeTrace subOk bOk).count (.subscribeTopic "sonarr") ≤ 1 ∧
    (runModeTrace subOk bOk).count (.subscribeTopic "radarr") ≤ 1 := by
  unfold runModeTrace
  by_cases h1 : subOk "sonarr" = true
  · rw [if_pos h1]
    by_cases h2 : subOk "radarr" = true
    · rw [if_pos h2]
      by_cases h3 : bOk = true
      · rw [if_pos h3]
        exact ⟨fun _ => ⟨⟨[.rssStart], rfl⟩, by decide, by decide⟩,
          by decide, by decide⟩
      · rw [if_neg h3]
        exact ⟨fun _ => ⟨⟨[], rfl⟩, by decide, by decide⟩,
          by decide, by decide⟩
    · rw [if_neg h2]
      exact ⟨fun hmem => absurd hmem (by decide), by decide, by decide⟩
  · rw [if_neg h1]
    exact ⟨fun hmem => absurd hmem (by decide), by decide, by decide⟩

/-- Outcomes in which every subscription and the bootstrap succeed. -/
def allOk : String → Bool := fun _ => true

/-- Witness for C8 on the fully successful run. -/
theorem C8_subscribe_before_join_witness :
    (∃ rest, runModeTrace allOk true =
      [.subscribeTopic "sonarr", .subscribeTopic "radarr",
       .bootstrapJoin] ++ rest) ∧
    (runModeTrace allOk true).count (.subscribeTopic "sonarr") = 1 ∧
    (runModeTrace allOk true).count (.subscribeTopic "radarr") = 1 :=
  (C8_subscribe_before_join allOk true).1 (by decide)

end RunPath

namespace Shutdown

/-- The shutdown order of a fold of merged leaves lists the leaf names
in order. -/
theorem shutdownOrder_mergeStates (names : List String) :
    shutdownOrder (mergeStates (names.map .leaf)) = names := by
  induction names with
  | nil => rfl
  | cons n ns ih =>
      simp only [List.map_cons, mergeStates, List.foldr_cons] at *
      simp [shutdownOrder, ih]

/-- C4: main drives shutdown of the aggregate with a 60-second
deadline, and under the dependency ordering — a component is signaled
only once everything it depends on has finished stopping — the
rss-scheduler state, the declared dependency of the merged
pvr-processor states, completes before any pvr processor is signaled:
the signal order is rss first, then the pvrs. -/
theorem C4_shutdown_order (pvrNames : List String) :
    appShutdownDeadlineSeconds = 60 ∧
    shutdownOrder (appState pvrNames) = "rss" :: pvrNames := by
  refine ⟨rfl, ?_⟩
  simp [appState, shutdownOrder, shutdownOrder_mergeStates]

end Shutdown
